import Mathlib

/-!
# obligator: the HTTP handler (`handler.go`)

A shallow embedding of the request handlers registered by `NewHandler`:
`/validate`, `/login`, `/login-fedcm-auto` and `/logout`.

Each handler is embedded as a function from its inputs (the request, and the
values its collaborators return) to the list of effects it performs, in program
order.  A second layer, `ResponseWriter`, gives the meaning of those effects
on an `http.ResponseWriter`: the first status write wins, and the headers the
client sees are the ones present at that moment.
-/

namespace Obligator

/-! ## Data model -/

/-- An identity as used by `handler.go`: the fields `IdType` and `Id` read at
lines 78-79. -/
structure Identity where
  IdType : String
  Id : String
  deriving DecidableEq, Repr

/-- Modelled from the spec: the declaration of `OAuth2Provider` is not in
`handler.go`; the spec lists its fields. `loginFunc` only passes the values on. -/
structure OAuth2Provider where
  Id : String
  DisplayName : String
  Logo : String
  AuthorizationEndpoint : String
  ClientCredentials : String
  Scope : String
  deriving DecidableEq, Repr

/-- Go's `url.Values` (`map[string][]string`) as an association list. -/
abbrev Values := List (String × List String)

/-- Go's `Values.Get`: the first value stored under `key`, or `""`. -/
def Values.Get (v : Values) (key : String) : String :=
  match v.lookup key with
  | some (x :: _) => x
  | _ => ""

/-- The parts of `*http.Request` the handlers read.  `Form` is `r.Form` as left
by `r.ParseForm()`; `Cookies` is what the request carries (read only by the
collaborators `validate` and `getIdentities`). -/
structure Request where
  Method : String
  Form : Values
  Cookies : List (String × String)
  deriving DecidableEq, Repr

/-- The anonymous struct built at lines 109-127 and handed to the template. -/
structure LoginData where
  DisplayName : String
  CanEmail : Bool
  Identities : List Identity
  OAuth2Providers : List OAuth2Provider
  LogoMap : List (String × String)
  ReturnUri : String
  RootUri : String
  FedCm : Bool
  deriving DecidableEq, Repr

/-- A primitive operation on an `http.ResponseWriter`. -/
inductive WriterOp where
  /-- The call `w.Header().Set(key, value)` -/
  | headerSet (key value : String)
  /-- The call `w.Header().Add(key, value)` -/
  | headerAdd (key value : String)
  /-- The call `w.WriteHeader(code)` -/
  | writeHeader (code : Nat)
  /-- The call `w.Write` of the given text -/
  | write (s : String)
  deriving DecidableEq, Repr

/-- One observable step of a handler, in the order the source performs them. -/
inductive Effect where
  /-- The call `w.Header().Set(key, value)` -/
  | headerSet (key value : String)
  /-- The call `w.Header().Add(key, value)` -/
  | headerAdd (key value : String)
  /-- The call `w.WriteHeader(code)` -/
  | writeHeader (code : Nat)
  /-- The call `io.WriteString(w, s)` -/
  | writeString (s : String)
  /-- The call `http.Redirect(w, r, url, code)` -/
  | redirect (url : String) (code : Nat)
  /-- The call `fmt.Println(err)` -/
  | println (s : String)
  /-- The call `fmt.Fprintf(os.Stderr, format)` -/
  | fprintfStderr (format : String)
  /-- The call `deleteLoginKeyCookie(storage, w)` -/
  | deleteLoginKeyCookie
  /-- The call `setReturnUriCookie(storage, returnUri, w)` -/
  | setReturnUriCookie (returnUri : String)
  /-- The call `tmpl.ExecuteTemplate(w, name, data)` -/
  | executeTemplate (name : String) (data : LoginData)
  deriving DecidableEq, Repr

/-- The storage and the helper functions of the package that `handler.go` calls
but does not define; each field is what the call returns.  A helper that is
handed `w` also has the list of operations it performs on it. -/
structure Env where
  /-- Result of `storage.GetRootUri()` -/
  GetRootUri : String
  /-- Result of `storage.GetDisplayName()` -/
  GetDisplayName : String
  /-- Result of `storage.GetSmtpConfig()`: the error it returns (`none` for `nil`); the
  configuration itself is discarded at line 91 -/
  GetSmtpConfig : Option String
  /-- Result of `storage.GetOAuth2Providers()`: the slice and the error -/
  GetOAuth2Providers : List OAuth2Provider × Option String
  /-- the package variable `providerLogoMap` -/
  providerLogoMap : List (String × String)
  /-- Result of `validate(storage, r)`: the `*Identity` (`none` for `nil`) and the error -/
  validate : Request → Option Identity × Option String
  /-- Result of `getIdentities(storage, r, publicJwks)`: the slice and the error -/
  getIdentities : Request → List Identity × Option String
  /-- Result of `deleteLoginKeyCookie(storage, w)`: what it does to `w`, and the error -/
  deleteLoginKeyCookie : List WriterOp × Option String
  /-- Result of `setReturnUriCookie(storage, returnUri, w)`: what it does to `w` -/
  setReturnUriCookie : String → List WriterOp
  /-- Result of `tmpl.ExecuteTemplate(w, name, data)`: the text written to `w`, and the error -/
  ExecuteTemplate : String → LoginData → String × Option String

/-! ## The handlers -/

/-- The `fmt.Sprintf` of lines 67-68; each `%s` inserts its argument unchanged. -/
def validateUrl (rootUri redirectUri : String) : String :=
  rootUri ++ "/auth?client_id=" ++ redirectUri ++ "&redirect_uri=" ++ redirectUri
    ++ "&response_type=code&state=&scope="

/-- The `/validate` handler, lines 63-84. -/
def validateHandler (env : Env) (r : Request) : List Effect :=
  let redirectUri := r.Form.Get "redirect_uri"
  let url := validateUrl env.GetRootUri redirectUri
  match env.validate r with
  | (_, some err) => [.println err, .redirect url 307]
  | (some validation, none) =>
      [.headerSet "Remote-Id-Type" validation.IdType, .headerSet "Remote-Id" validation.Id]
  | (none, none) => [.headerSet "Remote-Id-Type" "", .headerSet "Remote-Id" ""]

/-- The closure `loginFunc`, lines 86-135. -/
def loginFunc (env : Env) (r : Request) (fedCm : Bool) : List Effect :=
  let idents := (env.getIdentities r).1
  let canEmail := match env.GetSmtpConfig with
    | some _ => false
    | none => true
  match env.GetOAuth2Providers with
  | (_, some err) => [.writeHeader 500, .writeString err]
  | (providers, none) =>
      let returnUri := if fedCm then "/login-fedcm-auto" else "/login"
      let data : LoginData :=
        { DisplayName := env.GetDisplayName
          CanEmail := canEmail
          Identities := idents
          OAuth2Providers := providers
          LogoMap := env.providerLogoMap
          ReturnUri := returnUri
          RootUri := env.GetRootUri
          FedCm := fedCm }
      [.setReturnUriCookie returnUri, .executeTemplate "login.html" data] ++
        match (env.ExecuteTemplate "login.html" data).2 with
        | some err => [.writeHeader 500, .writeString err]
        | none => []

/-- The struct literal of lines 109-127 as `loginFunc` fills it once
`GetOAuth2Providers` has returned `providers` without error. -/
def loginData (env : Env) (r : Request) (fedCm : Bool) (providers : List OAuth2Provider) :
    LoginData :=
  { DisplayName := env.GetDisplayName
    CanEmail := env.GetSmtpConfig.isNone
    Identities := (env.getIdentities r).1
    OAuth2Providers := providers
    LogoMap := env.providerLogoMap
    ReturnUri := if fedCm then "/login-fedcm-auto" else "/login"
    RootUri := env.GetRootUri
    FedCm := fedCm }

/-- The handler registered for `/login-fedcm-auto`, lines 137-139. -/
def loginFedCmAutoHandler (env : Env) (r : Request) : List Effect :=
  loginFunc env r true

/-- The handler registered for `/login`, lines 140-142. -/
def loginHandler (env : Env) (r : Request) : List Effect :=
  loginFunc env r false

/-- The `/logout` handler, lines 144-163.  The error branch (lines 156-159) has
no `return`: control continues at line 161. -/
def logoutHandler (env : Env) (r : Request) : List Effect :=
  if r.Method ≠ "POST" then
    [.writeHeader 405]
  else
    let redirect := r.Form.Get "prev_page"
    [.deleteLoginKeyCookie] ++
      (match env.deleteLoginKeyCookie.2 with
        | some err => [.writeHeader 500, .fprintfStderr err]
        | none => []) ++
      [.headerAdd "Set-Login" "logged-out", .redirect redirect 303]

/-! ## The response writer -/

/-- Go's `http.Header` (`map[string][]string`) as an association list.  The keys
the handlers use are already in canonical form. -/
abbrev Header := List (String × List String)

/-- Go's `Header.Set`: the key now holds exactly `[value]`. -/
def Header.Set (h : Header) (key value : String) : Header :=
  (key, [value]) :: h.filter (fun kv => kv.1 ≠ key)

/-- Go's `Header.Add`: `value` is appended to what the key holds. -/
def Header.Add (h : Header) (key value : String) : Header :=
  (key, (h.lookup key).getD [] ++ [value]) :: h.filter (fun kv => kv.1 ≠ key)

/-- Go's `Header.Values`. -/
def Header.Values (h : Header) (key : String) : List String :=
  (h.lookup key).getD []

/-- Go's `Header.Get`: the first value under `key`, or `""`. -/
def Header.Get (h : Header) (key : String) : String :=
  (Header.Values h key).head?.getD ""

/-- Whether the key is present in the map (`_, ok := h[key]`). -/
def Header.Has (h : Header) (key : String) : Bool :=
  (h.lookup key).isSome

/-- The state of an `http.ResponseWriter`: the live header map, and, once a
status has been written, that status together with the headers as they stood
at that moment (later changes to the map do not reach the client). -/
structure ResponseWriter where
  header : Header
  status : Option Nat
  sent : Header
  body : String
  deriving DecidableEq, Repr

/-- The writer a handler is given. -/
def ResponseWriter.fresh : ResponseWriter :=
  { header := [], status := none, sent := [], body := "" }

/-- Go's `w.WriteHeader(code)`: only the first call has an effect. -/
def ResponseWriter.WriteHeader (w : ResponseWriter) (code : Nat) : ResponseWriter :=
  match w.status with
  | some _ => w
  | none => { w with status := some code, sent := w.header }

/-- Go's `w.Write`: writes status 200 first if none was written. -/
def ResponseWriter.Write (w : ResponseWriter) (s : String) : ResponseWriter :=
  let w1 := w.WriteHeader 200
  { w1 with body := w1.body ++ s }

/-- One primitive operation applied to the writer. -/
def ResponseWriter.apply (w : ResponseWriter) : WriterOp → ResponseWriter
  | .headerSet k v => { w with header := Header.Set w.header k v }
  | .headerAdd k v => { w with header := Header.Add w.header k v }
  | .writeHeader code => w.WriteHeader code
  | .write s => w.Write s

/-- Go's `http.StatusText` on the codes the handlers use. -/
def StatusText (code : Nat) : String :=
  if code = 200 then "OK"
  else if code = 303 then "See Other"
  else if code = 307 then "Temporary Redirect"
  else if code = 405 then "Method Not Allowed"
  else if code = 500 then "Internal Server Error"
  else ""

/-- Go's `htmlEscape` of `net/http`. -/
def htmlEscape (s : String) : String :=
  String.join (s.data.map fun c =>
    if c = '&' then "&amp;"
    else if c = '<' then "&lt;"
    else if c = '>' then "&gt;"
    else if c = Char.ofNat 34 then "&#34;"
    else if c = Char.ofNat 39 then "&#39;"
    else String.singleton c)

/-- Go's `http.Redirect(w, r, url, code)`: sets `Location`, writes the status,
and for a `GET` without a `Content-Type` adds the short HTML note.  The
`Location` header is recorded as the `url` argument; the rewriting net/http
applies to that string (relative paths, non-ASCII bytes) is not part of this
development, whose statements about the target speak of the argument. -/
def ResponseWriter.Redirect (w : ResponseWriter) (method url : String) (code : Nat) :
    ResponseWriter :=
  let hadCT := Header.Has w.header "Content-Type"
  let w1 := { w with header := Header.Set w.header "Location" url }
  let w2 :=
    if !hadCT && (method == "GET" || method == "HEAD") then
      { w1 with header := Header.Set w1.header "Content-Type" "text/html; charset=utf-8" }
    else w1
  let w3 := w2.WriteHeader code
  if !hadCT && method == "GET" then
    w3.Write ("<a href=\"" ++ htmlEscape url ++ "\">" ++ StatusText code ++ "</a>.\n\n")
  else w3

/-- The meaning of one effect on the writer.  Output to stdout and stderr does
not touch it. -/
def ResponseWriter.step (env : Env) (method : String) (w : ResponseWriter) :
    Effect → ResponseWriter
  | .headerSet k v => w.apply (.headerSet k v)
  | .headerAdd k v => w.apply (.headerAdd k v)
  | .writeHeader code => w.apply (.writeHeader code)
  | .writeString s => w.apply (.write s)
  | .redirect url code => w.Redirect method url code
  | .println _ => w
  | .fprintfStderr _ => w
  | .deleteLoginKeyCookie => env.deleteLoginKeyCookie.1.foldl ResponseWriter.apply w
  | .setReturnUriCookie uri => (env.setReturnUriCookie uri).foldl ResponseWriter.apply w
  | .executeTemplate name data =>
      let out := (env.ExecuteTemplate name data).1
      if out = "" then w else w.Write out

/-- What the client receives. -/
structure Response where
  status : Nat
  header : Header
  body : String
  deriving DecidableEq, Repr

/-- The response once the handler has returned: a handler that never wrote a
status gets 200 and the headers as they stand. -/
def ResponseWriter.finish (w : ResponseWriter) : Response :=
  match w.status with
  | some code => { status := code, header := w.sent, body := w.body }
  | none => { status := 200, header := w.header, body := w.body }

/-- The response a handler's effects produce on a fresh writer. -/
def respond (env : Env) (r : Request) (effects : List Effect) : Response :=
  (effects.foldl (ResponseWriter.step env r.Method) ResponseWriter.fresh).finish

/-- Whether an operation only touches the header map (as `http.SetCookie` does). -/
def WriterOp.headerOnly : WriterOp → Bool
  | .headerSet _ _ => true
  | .headerAdd _ _ => true
  | .writeHeader _ => false
  | .write _ => false

/-! ## Reading the redirect URL back -/

/-- Go's `strings.Cut` for a one-character separator: the text before the first
`sep` and the text after it; without a `sep` the whole text and nothing. -/
def cut (sep : Char) : List Char → List Char × List Char
  | [] => ([], [])
  | c :: cs => if c = sep then ([], cs) else (c :: (cut sep cs).1, (cut sep cs).2)

/-- Go's `strings.Split` for a one-character separator. -/
def split (sep : Char) : List Char → List (List Char)
  | [] => [[]]
  | c :: cs =>
      if c = sep then [] :: split sep cs
      else (c :: (split sep cs).headD []) :: (split sep cs).tail

/-- The query part of a URL: the fragment (from the first `#`) is dropped, and
the query is what follows the first `?`. -/
def rawQuery (url : String) : List Char :=
  (cut '?' (cut '#' url.data).1).2

/-- A query split on `&`, each piece split at its first `=`; nothing is decoded. -/
def pairsOf (q : List Char) : List (String × String) :=
  (split '&' q).map fun p => (String.mk (cut '=' p).1, String.mk (cut '=' p).2)

/-- The parameters of a URL, in order of appearance. -/
def queryPairs (url : String) : List (String × String) :=
  pairsOf (rawQuery url)

/-- The first value of parameter `key` in the URL, or `""`. -/
def queryGet (url key : String) : String :=
  ((queryPairs url).lookup key).getD ""

/-- Whether the text has none of the characters `&`, `#`, `=`, `%`, `+`, `;`. -/
def plainUri (s : String) : Bool :=
  s.data.all fun c => !(['&', '#', '=', '%', '+', ';'].contains c)

/-! ## Concrete inputs used below -/

/-- A storage whose collaborators all succeed, the cookie helpers adding one
`Set-Cookie` header each; `validate` reports a missing cookie. -/
def baseEnv : Env :=
  { GetRootUri := "https://auth.example"
    GetDisplayName := "obligator"
    GetSmtpConfig := none
    GetOAuth2Providers := ([], none)
    providerLogoMap := []
    validate := fun _ => (none, some "http: named cookie not present")
    getIdentities := fun _ => ([], none)
    deleteLoginKeyCookie := ([.headerAdd "Set-Cookie" "login_key=; Max-Age=0"], none)
    setReturnUriCookie := fun uri => [.headerAdd "Set-Cookie" ("return_uri=" ++ uri)]
    ExecuteTemplate := fun _ _ => ("<html></html>", none) }

/-- A `GET` that asks for `https://app.example` and carries no cookie. -/
def appRequest : Request :=
  { Method := "GET", Form := [("redirect_uri", ["https://app.example"])], Cookies := [] }

/-- The storage of `baseEnv` with a `validate` that resolves an email identity. -/
def emailEnv : Env :=
  { baseEnv with
    validate := fun _ => (some { IdType := "email", Id := "a@example.com" }, none) }

/-- The storage of `baseEnv` with a `validate` that returns `nil, nil`. -/
def nilEnv : Env :=
  { baseEnv with validate := fun _ => (none, none) }

/-- The storage of `baseEnv` with a failing `deleteLoginKeyCookie` that leaves
the writer alone. -/
def deleteFailsEnv : Env :=
  { baseEnv with deleteLoginKeyCookie := ([], some "invalid cookie domain") }

/-- The storage of `baseEnv` with a failing provider-list lookup. -/
def providersFailEnv : Env :=
  { baseEnv with GetOAuth2Providers := ([], some "storage unavailable") }

/-- The storage of `baseEnv` without SMTP settings and with a template that
fails after writing nothing. -/
def noSmtpEnv : Env :=
  { baseEnv with
    GetSmtpConfig := some "no SMTP config"
    ExecuteTemplate := fun _ _ => ("", some "template: login.html is undefined") }

/-- The storage of `baseEnv` without SMTP settings; the template renders. -/
def smtpFailsEnv : Env :=
  { baseEnv with GetSmtpConfig := some "no SMTP config" }

/-- A `POST` to `/logout` with a valid-looking session cookie. -/
def logoutRequest : Request :=
  { Method := "POST", Form := [("prev_page", ["/apps"])], Cookies := [("login_key", "eyJ")] }

/-- The same `POST` without any cookie. -/
def logoutAgainRequest : Request :=
  { Method := "POST", Form := [("prev_page", ["/apps"])], Cookies := [] }

/-- A `GET` to `/logout`. -/
def logoutGetRequest : Request :=
  { Method := "GET", Form := [("prev_page", ["/apps"])], Cookies := [("login_key", "eyJ")] }

/-! ## The `/validate` handler -/

/-- The writer after the error branch of `/validate`. -/
theorem respond_validate_error (env : Env) (r : Request) (err url : String) :
    (respond env r [.println err, .redirect url 307]).status = 307 ∧
    Header.Has (respond env r [.println err, .redirect url 307]).header "Remote-Id-Type" = false ∧
    Header.Has (respond env r [.println err, .redirect url 307]).header "Remote-Id" = false ∧
    Header.Has (respond env r [.println err, .redirect url 307]).header "Location" = true := by
  simp only [respond, List.foldl, ResponseWriter.step, ResponseWriter.Redirect,
    ResponseWriter.fresh, Header.Has, Header.Set, ResponseWriter.WriteHeader,
    ResponseWriter.Write, ResponseWriter.finish]
  split_ifs <;> simp [List.lookup]

/-- The writer after two `Header().Set` calls on the identity headers. -/
theorem respond_validate_headers (env : Env) (r : Request) (a b : String) :
    respond env r [.headerSet "Remote-Id-Type" a, .headerSet "Remote-Id" b] =
      { status := 200, header := [("Remote-Id", [b]), ("Remote-Id-Type", [a])], body := "" } := by
  simp [respond, ResponseWriter.step, ResponseWriter.apply, ResponseWriter.fresh, Header.Set,
    ResponseWriter.finish]

/-- C1: whenever `validate` returns an error, the `/validate` handler prints it and
calls `http.Redirect` with status 307 and the target
`root ++ "/auth?client_id=" ++ redirect_uri ++ "&redirect_uri=" ++ redirect_uri ++
"&response_type=code&state=&scope="`; the response has status 307, a `Location`,
and neither the `Remote-Id-Type` nor the `Remote-Id` header. -/
theorem validate_error_redirects (env : Env) (r : Request) (v : Option Identity) (err : String)
    (h : env.validate r = (v, some err)) :
    validateHandler env r =
      [.println err,
       .redirect (env.GetRootUri ++ "/auth?client_id=" ++ r.Form.Get "redirect_uri"
          ++ "&redirect_uri=" ++ r.Form.Get "redirect_uri"
          ++ "&response_type=code&state=&scope=") 307] ∧
    (∀ k x, Effect.headerSet k x ∉ validateHandler env r) ∧
    (respond env r (validateHandler env r)).status = 307 ∧
    Header.Has (respond env r (validateHandler env r)).header "Remote-Id-Type" = false ∧
    Header.Has (respond env r (validateHandler env r)).header "Remote-Id" = false ∧
    Header.Has (respond env r (validateHandler env r)).header "Location" = true := by
  have ht : validateHandler env r =
      [.println err,
       .redirect (env.GetRootUri ++ "/auth?client_id=" ++ r.Form.Get "redirect_uri"
          ++ "&redirect_uri=" ++ r.Form.Get "redirect_uri"
          ++ "&response_type=code&state=&scope=") 307] := by
    simp [validateHandler, validateUrl, h]
  refine ⟨ht, ?_, ?_⟩
  · intro k x
    simp [ht]
  · rw [ht]
    exact respond_validate_error env r err _

/-- The spec's example for C1: no session cookie and `redirect_uri=https://app.example`. -/
theorem validate_error_redirects_witness :
    baseEnv.validate appRequest = (none, some "http: named cookie not present") ∧
    validateHandler baseEnv appRequest =
      [.println "http: named cookie not present",
       .redirect ("https://auth.example/auth?client_id=https://app.example"
          ++ "&redirect_uri=https://app.example&response_type=code&state=&scope=") 307] ∧
    (respond baseEnv appRequest (validateHandler baseEnv appRequest)).status = 307 :=
  ⟨rfl,
   (validate_error_redirects baseEnv appRequest none "http: named cookie not present" rfl).1.trans
     (by decide),
   (validate_error_redirects baseEnv appRequest none "http: named cookie not present" rfl).2.2.1⟩

/-- C2: when `validate` returns an identity `v` and no error, the `/validate` handler
performs exactly the two `Header().Set` calls (no redirect, no status write); the
response is 200 with `Remote-Id-Type: v.IdType` and `Remote-Id: v.Id`. -/
theorem validate_identity_sets_headers (env : Env) (r : Request) (v : Identity)
    (h : env.validate r = (some v, none)) :
    validateHandler env r =
      [.headerSet "Remote-Id-Type" v.IdType, .headerSet "Remote-Id" v.Id] ∧
    (respond env r (validateHandler env r)).status = 200 ∧
    Header.Values (respond env r (validateHandler env r)).header "Remote-Id-Type" = [v.IdType] ∧
    Header.Values (respond env r (validateHandler env r)).header "Remote-Id" = [v.Id] ∧
    Header.Has (respond env r (validateHandler env r)).header "Location" = false := by
  have ht : validateHandler env r =
      [.headerSet "Remote-Id-Type" v.IdType, .headerSet "Remote-Id" v.Id] := by
    simp [validateHandler, h]
  rw [ht, respond_validate_headers]
  simp [Header.Values, Header.Has, List.lookup]

/-- The spec's example for C2: the session decodes to the email identity `a@example.com`. -/
theorem validate_identity_sets_headers_witness :
    (respond emailEnv appRequest (validateHandler emailEnv appRequest)).status = 200 ∧
    Header.Values (respond emailEnv appRequest (validateHandler emailEnv appRequest)).header
      "Remote-Id-Type" = ["email"] ∧
    Header.Values (respond emailEnv appRequest (validateHandler emailEnv appRequest)).header
      "Remote-Id" = ["a@example.com"] :=
  have h := validate_identity_sets_headers emailEnv appRequest
    { IdType := "email", Id := "a@example.com" } rfl
  ⟨h.2.1, h.2.2.1, h.2.2.2.1⟩

/-- C3, at a concrete input: `validate` yields `nil` without an error, and the
response is 200 with both identity headers set to the empty string. -/
theorem validate_nil_identity_is_200 :
    nilEnv.validate appRequest = (none, none) ∧
    validateHandler nilEnv appRequest =
      [.headerSet "Remote-Id-Type" "", .headerSet "Remote-Id" ""] ∧
    (respond nilEnv appRequest (validateHandler nilEnv appRequest)).status = 200 ∧
    (respond nilEnv appRequest (validateHandler nilEnv appRequest)).status ≠ 307 ∧
    Header.Values (respond nilEnv appRequest (validateHandler nilEnv appRequest)).header
      "Remote-Id-Type" = [""] ∧
    Header.Values (respond nilEnv appRequest (validateHandler nilEnv appRequest)).header
      "Remote-Id" = [""] := by
  decide

/-- C3, amended: the outcome of `/validate` is decided by the error of `validate`
alone. With an error the response is the 307 redirect to the authorization entry
point and no identity header is set; without one it is 200, with the identity
headers carrying the fields of the identity when there is one, and both set to
the empty string when `validate` yields `nil`. -/
theorem validate_outcomes (env : Env) (r : Request) :
    match env.validate r with
    | (_, some err) =>
        validateHandler env r =
          [.println err,
           .redirect (validateUrl env.GetRootUri (r.Form.Get "redirect_uri")) 307] ∧
        (respond env r (validateHandler env r)).status = 307 ∧
        Header.Has (respond env r (validateHandler env r)).header "Remote-Id-Type" = false ∧
        Header.Has (respond env r (validateHandler env r)).header "Remote-Id" = false
    | (some v, none) =>
        (respond env r (validateHandler env r)).status = 200 ∧
        Header.Values (respond env r (validateHandler env r)).header "Remote-Id-Type"
          = [v.IdType] ∧
        Header.Values (respond env r (validateHandler env r)).header "Remote-Id" = [v.Id]
    | (none, none) =>
        (respond env r (validateHandler env r)).status = 200 ∧
        Header.Values (respond env r (validateHandler env r)).header "Remote-Id-Type" = [""] ∧
        Header.Values (respond env r (validateHandler env r)).header "Remote-Id" = [""] := by
  rcases h : env.validate r with ⟨v, e⟩
  cases e with
  | some err =>
    have ht : validateHandler env r =
        [.println err, .redirect (validateUrl env.GetRootUri (r.Form.Get "redirect_uri")) 307] := by
      simp [validateHandler, h]
    simp only
    rw [ht]
    have hr := respond_validate_error env r err
      (validateUrl env.GetRootUri (r.Form.Get "redirect_uri"))
    exact ⟨rfl, hr.1, hr.2.1, hr.2.2.1⟩
  | none =>
    cases v with
    | some v =>
      have ht : validateHandler env r =
          [.headerSet "Remote-Id-Type" v.IdType, .headerSet "Remote-Id" v.Id] := by
        simp [validateHandler, h]
      simp only
      rw [ht, respond_validate_headers]
      simp [Header.Values, List.lookup]
    | none =>
      have ht : validateHandler env r =
          [.headerSet "Remote-Id-Type" "", .headerSet "Remote-Id" ""] := by
        simp [validateHandler, h]
      simp only
      rw [ht, respond_validate_headers]
      simp [Header.Values, List.lookup]

/-- The three outcomes of `/validate`: a missing cookie, an email identity, and
`nil` without an error. -/
theorem validate_outcomes_witness :
    (respond baseEnv appRequest (validateHandler baseEnv appRequest)).status = 307 ∧
    Header.Values (respond emailEnv appRequest (validateHandler emailEnv appRequest)).header
      "Remote-Id" = ["a@example.com"] ∧
    (respond nilEnv appRequest (validateHandler nilEnv appRequest)).status = 200 ∧
    Header.Values (respond nilEnv appRequest (validateHandler nilEnv appRequest)).header
      "Remote-Id" = [""] :=
  ⟨(validate_outcomes baseEnv appRequest).2.1, (validate_outcomes emailEnv appRequest).2.2,
   (validate_outcomes nilEnv appRequest).1, (validate_outcomes nilEnv appRequest).2.2⟩

/-- C4: whatever `validate` returns (an identity, `nil`, or any error), the status of
the `/validate` response is 200 or 307. -/
theorem validate_status_200_or_307 (env : Env) (r : Request) :
    (respond env r (validateHandler env r)).status = 200 ∨
    (respond env r (validateHandler env r)).status = 307 := by
  rcases h : env.validate r with ⟨v, e⟩
  cases e with
  | some err =>
    right
    have ht : validateHandler env r =
        [.println err, .redirect (validateUrl env.GetRootUri (r.Form.Get "redirect_uri")) 307] := by
      simp [validateHandler, h]
    rw [ht]
    exact (respond_validate_error env r err _).1
  | none =>
    left
    cases v with
    | some v =>
      have ht : validateHandler env r =
          [.headerSet "Remote-Id-Type" v.IdType, .headerSet "Remote-Id" v.Id] := by
        simp [validateHandler, h]
      rw [ht, respond_validate_headers]
    | none =>
      have ht : validateHandler env r =
          [.headerSet "Remote-Id-Type" "", .headerSet "Remote-Id" ""] := by
        simp [validateHandler, h]
      rw [ht, respond_validate_headers]

/-! ## The `/logout` handler -/

/-- Operations on the header map alone leave status, frozen headers and body as
they were. -/
theorem foldl_apply_headerOnly (ops : List WriterOp) (w : ResponseWriter)
    (h : ops.all WriterOp.headerOnly = true) :
    (ops.foldl ResponseWriter.apply w).status = w.status ∧
    (ops.foldl ResponseWriter.apply w).sent = w.sent ∧
    (ops.foldl ResponseWriter.apply w).body = w.body := by
  induction ops generalizing w with
  | nil => simp
  | cons op ops ih =>
    simp only [List.all_cons, Bool.and_eq_true] at h
    simp only [List.foldl_cons]
    have := ih (w.apply op) h.2
    cases op <;> simp_all [ResponseWriter.apply, WriterOp.headerOnly]

/-- The effects of a `POST` to `/logout` whose cookie clearing succeeds. -/
theorem logoutHandler_success (env : Env) (r : Request) (hm : r.Method = "POST")
    (hd : env.deleteLoginKeyCookie.2 = none) :
    logoutHandler env r =
      [.deleteLoginKeyCookie, .headerAdd "Set-Login" "logged-out",
       .redirect (r.Form.Get "prev_page") 303] := by
  simp [logoutHandler, hm, hd]

/-- C5: a request to `/logout` whose method is not `POST` gets status 405 and nothing
else happens: `deleteLoginKeyCookie` is not called, no `Set-Login` header is added
and no redirect is issued. -/
theorem logout_rejects_non_post (env : Env) (r : Request) (h : r.Method ≠ "POST") :
    logoutHandler env r = [.writeHeader 405] ∧
    Effect.deleteLoginKeyCookie ∉ logoutHandler env r ∧
    (∀ k v, Effect.headerAdd k v ∉ logoutHandler env r) ∧
    (∀ url code, Effect.redirect url code ∉ logoutHandler env r) ∧
    respond env r (logoutHandler env r) = { status := 405, header := [], body := "" } := by
  have ht : logoutHandler env r = [.writeHeader 405] := by
    simp [logoutHandler, h]
  rw [ht]
  simp [respond, ResponseWriter.step, ResponseWriter.apply, ResponseWriter.WriteHeader,
    ResponseWriter.fresh, ResponseWriter.finish]

/-- A `GET` to `/logout` carrying a session cookie is answered with 405. -/
theorem logout_rejects_non_post_witness :
    logoutGetRequest.Method ≠ "POST" ∧
    logoutHandler baseEnv logoutGetRequest = [.writeHeader 405] ∧
    (respond baseEnv logoutGetRequest (logoutHandler baseEnv logoutGetRequest)).status = 405 :=
  ⟨by decide, (logout_rejects_non_post baseEnv logoutGetRequest (by decide)).1,
   by rw [(logout_rejects_non_post baseEnv logoutGetRequest (by decide)).2.2.2.2]⟩

/-- Setting or adding under one key leaves the other keys of the map alone. -/
theorem lookup_filter_ne (h : Header) (k key : String) (hk : k ≠ key) :
    List.lookup k (h.filter (fun kv => kv.1 ≠ key)) = List.lookup k h := by
  induction h with
  | nil => rfl
  | cons kv h ih =>
    obtain ⟨a, b⟩ := kv
    by_cases ha : a = key
    · have hb : (k == a) = false := by
        rw [ha]
        exact beq_false_of_ne hk
      rw [List.filter_cons_of_neg (by simp [ha]), ih, List.lookup_cons, hb]
    · rw [List.filter_cons_of_pos (by simp [ha]), List.lookup_cons, List.lookup_cons, ih]

/-- C6: for every `POST` to `/logout` whose cookie clearing succeeds, whatever cookies
the request carries, the handler calls `deleteLoginKeyCookie`, adds
`Set-Login: logged-out` and redirects with 303 to `prev_page`. Any other `POST` with
the same `prev_page` (a second logout, with or without a session) has the same
effects and the same response; when the cookie helper only touches headers, that
response has status 303 and carries `Set-Login: logged-out`, a `Location`, and under
every other key what the helper put there. -/
theorem logout_post_idempotent (env : Env) (r : Request) (hm : r.Method = "POST")
    (hd : env.deleteLoginKeyCookie.2 = none) :
    logoutHandler env r =
      [.deleteLoginKeyCookie, .headerAdd "Set-Login" "logged-out",
       .redirect (r.Form.Get "prev_page") 303] ∧
    (∀ cookies, logoutHandler env { r with Cookies := cookies } = logoutHandler env r) ∧
    (∀ r2 : Request, r2.Method = "POST" → r2.Form.Get "prev_page" = r.Form.Get "prev_page" →
      logoutHandler env r2 = logoutHandler env r ∧
      respond env r2 (logoutHandler env r2) = respond env r (logoutHandler env r)) ∧
    (env.deleteLoginKeyCookie.1.all WriterOp.headerOnly = true →
      (respond env r (logoutHandler env r)).status = 303 ∧
      "logged-out" ∈ Header.Values (respond env r (logoutHandler env r)).header "Set-Login" ∧
      Header.Has (respond env r (logoutHandler env r)).header "Location" = true ∧
      ∀ k, k ≠ "Set-Login" → k ≠ "Location" →
        Header.Values (respond env r (logoutHandler env r)).header k =
          Header.Values
            (env.deleteLoginKeyCookie.1.foldl ResponseWriter.apply ResponseWriter.fresh).header
            k) := by
  have ht := logoutHandler_success env r hm hd
  refine ⟨ht, ?_, ?_, ?_⟩
  · intro cookies
    rw [ht]
    exact logoutHandler_success env { r with Cookies := cookies } hm hd
  · intro r2 hm2 hp
    have ht2 := logoutHandler_success env r2 hm2 hd
    rw [ht, ht2, hp]
    refine ⟨rfl, ?_⟩
    simp [respond, hm, hm2]
  · intro hops
    obtain ⟨h1, _, _⟩ := foldl_apply_headerOnly env.deleteLoginKeyCookie.1
      ResponseWriter.fresh hops
    have hst : (env.deleteLoginKeyCookie.1.foldl ResponseWriter.apply
        ResponseWriter.fresh).status = none := h1
    have hhdr : (respond env r (logoutHandler env r)).header =
        Header.Set
          (Header.Add
            (env.deleteLoginKeyCookie.1.foldl ResponseWriter.apply ResponseWriter.fresh).header
            "Set-Login" "logged-out")
          "Location" (r.Form.Get "prev_page") := by
      rw [ht]
      simp [respond, ResponseWriter.step, ResponseWriter.apply, ResponseWriter.Redirect, hm,
        ResponseWriter.WriteHeader, ResponseWriter.finish, hst]
    refine ⟨?_, ?_, ?_, ?_⟩
    · rw [ht]
      simp [respond, ResponseWriter.step, ResponseWriter.apply, ResponseWriter.Redirect, hm,
        ResponseWriter.WriteHeader, ResponseWriter.finish, hst]
    · rw [hhdr]
      simp [Header.Values, Header.Set, Header.Add, List.lookup]
    · rw [hhdr]
      simp [Header.Has, Header.Set, List.lookup]
    · intro k hk1 hk2
      rw [hhdr]
      simp only [Header.Values, Header.Set, Header.Add]
      rw [List.lookup_cons, beq_false_of_ne hk2, lookup_filter_ne _ _ _ hk2, List.lookup_cons,
        beq_false_of_ne hk1, lookup_filter_ne _ _ _ hk1]

/-- Two logouts in a row with `prev_page=/apps`, the second without a session:
both are answered with the same 303. -/
theorem logout_post_idempotent_witness :
    logoutRequest.Method = "POST" ∧ baseEnv.deleteLoginKeyCookie.2 = none ∧
    respond baseEnv logoutAgainRequest (logoutHandler baseEnv logoutAgainRequest) =
      respond baseEnv logoutRequest (logoutHandler baseEnv logoutRequest) ∧
    (respond baseEnv logoutRequest (logoutHandler baseEnv logoutRequest)).status = 303 :=
  ⟨rfl, rfl,
   ((logout_post_idempotent baseEnv logoutRequest rfl rfl).2.2.1 logoutAgainRequest rfl rfl).2,
   ((logout_post_idempotent baseEnv logoutRequest rfl rfl).2.2.2 (by decide)).1⟩

/-- C7, at a concrete input: when `deleteLoginKeyCookie` fails, the handler writes
500 and then goes on to add `Set-Login: logged-out` and to call `http.Redirect` with
303. On the writer the first status stands: the response is 500 without `Set-Login`
and without `Location`. -/
theorem logout_delete_error_continues :
    logoutRequest.Method = "POST" ∧
    deleteFailsEnv.deleteLoginKeyCookie = ([], some "invalid cookie domain") ∧
    logoutHandler deleteFailsEnv logoutRequest =
      [.deleteLoginKeyCookie, .writeHeader 500, .fprintfStderr "invalid cookie domain",
       .headerAdd "Set-Login" "logged-out", .redirect "/apps" 303] ∧
    Effect.headerAdd "Set-Login" "logged-out" ∈ logoutHandler deleteFailsEnv logoutRequest ∧
    Effect.redirect "/apps" 303 ∈ logoutHandler deleteFailsEnv logoutRequest ∧
    respond deleteFailsEnv logoutRequest (logoutHandler deleteFailsEnv logoutRequest) =
      { status := 500, header := [], body := "" } := by
  decide

/-! ## The login pages -/

/-- The effects of `loginFunc` when the provider-list lookup fails. -/
theorem loginFunc_providers_error (env : Env) (r : Request) (fedCm : Bool)
    (ps : List OAuth2Provider) (err : String) (h : env.GetOAuth2Providers = (ps, some err)) :
    loginFunc env r fedCm = [.writeHeader 500, .writeString err] := by
  simp [loginFunc, h]

/-- The effects of `loginFunc` when the provider-list lookup succeeds. -/
theorem loginFunc_providers_ok (env : Env) (r : Request) (fedCm : Bool)
    (ps : List OAuth2Provider) (h : env.GetOAuth2Providers = (ps, none)) :
    loginFunc env r fedCm =
      [.setReturnUriCookie (if fedCm then "/login-fedcm-auto" else "/login"),
       .executeTemplate "login.html" (loginData env r fedCm ps)] ++
        match (env.ExecuteTemplate "login.html" (loginData env r fedCm ps)).2 with
        | some err => [.writeHeader 500, .writeString err]
        | none => [] := by
  have hc : (match env.GetSmtpConfig with
      | some _ => false
      | none => true) = env.GetSmtpConfig.isNone := by
    cases env.GetSmtpConfig <;> rfl
  simp only [loginFunc, h, loginData, hc]

/-- C8, at a concrete input: the provider-list lookup fails, and neither `/login` nor
`/login-fedcm-auto` calls `setReturnUriCookie`. -/
theorem login_providers_error_no_cookie :
    loginHandler providersFailEnv appRequest =
      [.writeHeader 500, .writeString "storage unavailable"] ∧
    loginFedCmAutoHandler providersFailEnv appRequest =
      [.writeHeader 500, .writeString "storage unavailable"] ∧
    Effect.setReturnUriCookie "/login" ∉ loginHandler providersFailEnv appRequest ∧
    Effect.setReturnUriCookie "/login-fedcm-auto" ∉
      loginFedCmAutoHandler providersFailEnv appRequest := by
  decide

/-- C8, amended: every invocation of the login assembler in which the provider-list
lookup succeeds calls `setReturnUriCookie` with `/login` (standard mode) or
`/login-fedcm-auto` (federated-credential mode) as its first effect, before the one
rendering of `login.html`, also when that rendering then fails; the `ReturnUri` of
the view model is the value put in the cookie. When the lookup fails the handler
answers 500 and issues no cookie. `/login` runs the assembler in standard mode,
`/login-fedcm-auto` in federated-credential mode. -/
theorem login_return_cookie (env : Env) (r : Request) (fedCm : Bool) :
    loginHandler env r = loginFunc env r false ∧
    loginFedCmAutoHandler env r = loginFunc env r true ∧
    match env.GetOAuth2Providers with
    | (_, some err) =>
        loginFunc env r fedCm = [.writeHeader 500, .writeString err] ∧
        ∀ uri, Effect.setReturnUriCookie uri ∉ loginFunc env r fedCm
    | (_, none) =>
        ∃ data rest,
          loginFunc env r fedCm =
            .setReturnUriCookie (if fedCm then "/login-fedcm-auto" else "/login") ::
              .executeTemplate "login.html" data :: rest ∧
          data.ReturnUri = (if fedCm then "/login-fedcm-auto" else "/login") ∧
          data.FedCm = fedCm ∧
          (∀ name d, Effect.executeTemplate name d ∉ rest) ∧
          (∀ uri, Effect.setReturnUriCookie uri ∉ rest) := by
  refine ⟨rfl, rfl, ?_⟩
  rcases h : env.GetOAuth2Providers with ⟨ps, e⟩
  cases e with
  | some err =>
    have ht := loginFunc_providers_error env r fedCm ps err h
    simp only
    rw [ht]
    simp
  | none =>
    have ht := loginFunc_providers_ok env r fedCm ps h
    simp only
    refine ⟨loginData env r fedCm ps, _, ht, rfl, rfl, ?_, ?_⟩
    · intro name d
      cases (env.ExecuteTemplate "login.html" (loginData env r fedCm ps)).2 <;> simp
    · intro uri
      cases (env.ExecuteTemplate "login.html" (loginData env r fedCm ps)).2 <;> simp

/-- A request to `/login-fedcm-auto` whose rendering fails: the cookie for
`/login-fedcm-auto` is issued first all the same. -/
theorem login_return_cookie_witness :
    ∃ data rest,
      loginFedCmAutoHandler noSmtpEnv appRequest =
        .setReturnUriCookie "/login-fedcm-auto" :: .executeTemplate "login.html" data :: rest ∧
      data.ReturnUri = "/login-fedcm-auto" ∧
      Effect.writeHeader 500 ∈ rest := by
  obtain ⟨data, rest, h1, h2, _, _, _⟩ := (login_return_cookie noSmtpEnv appRequest true).2.2
  refine ⟨data, rest, h1, h2, ?_⟩
  have h3 : loginFunc noSmtpEnv appRequest true =
      [.setReturnUriCookie "/login-fedcm-auto",
       .executeTemplate "login.html" (loginData noSmtpEnv appRequest true []),
       .writeHeader 500, .writeString "template: login.html is undefined"] := by
    decide
  rw [h3] at h1
  simp only [List.cons.injEq] at h1
  rw [← h1.2.2]
  simp

/-- C9: a failing SMTP lookup is not an error. Whenever the provider list is returned
without error (empty or not), the effects of the login assembler are exactly: the
return cookie, one rendering of `login.html`, and, only if that rendering fails, 500
with the template's error text. The view model is the struct of lines 109-127 with
that provider list; the SMTP lookup enters it through `CanEmail` alone, which is
true exactly when `GetSmtpConfig` returned no error. When rendering succeeds behind
a cookie helper that only touches headers, the response is 200 with the rendered
page. A failing provider-list lookup gives exactly `WriteHeader(500)` and the error
text: a 500 response with that body, and no rendering. -/
theorem login_collaborator_failures (env : Env) (r : Request) (fedCm : Bool) :
    match env.GetOAuth2Providers with
    | (_, some err) =>
        loginFunc env r fedCm = [.writeHeader 500, .writeString err] ∧
        (∀ name d, Effect.executeTemplate name d ∉ loginFunc env r fedCm) ∧
        (respond env r (loginFunc env r fedCm)).status = 500 ∧
        (respond env r (loginFunc env r fedCm)).body = err
    | (providers, none) =>
        loginFunc env r fedCm =
          [.setReturnUriCookie (if fedCm then "/login-fedcm-auto" else "/login"),
           .executeTemplate "login.html" (loginData env r fedCm providers)] ++
            (match (env.ExecuteTemplate "login.html" (loginData env r fedCm providers)).2 with
              | some err => [.writeHeader 500, .writeString err]
              | none => []) ∧
        loginData env r fedCm providers =
          { DisplayName := env.GetDisplayName
            CanEmail := env.GetSmtpConfig.isNone
            Identities := (env.getIdentities r).1
            OAuth2Providers := providers
            LogoMap := env.providerLogoMap
            ReturnUri := if fedCm then "/login-fedcm-auto" else "/login"
            RootUri := env.GetRootUri
            FedCm := fedCm } ∧
        ((loginData env r fedCm providers).CanEmail = true ↔ env.GetSmtpConfig = none) ∧
        ((env.ExecuteTemplate "login.html" (loginData env r fedCm providers)).2 = none →
          (env.setReturnUriCookie (if fedCm then "/login-fedcm-auto" else "/login")).all
            WriterOp.headerOnly = true →
          (respond env r (loginFunc env r fedCm)).status = 200 ∧
          (respond env r (loginFunc env r fedCm)).body =
            (env.ExecuteTemplate "login.html" (loginData env r fedCm providers)).1) := by
  rcases h : env.GetOAuth2Providers with ⟨ps, e⟩
  cases e with
  | some err =>
    have ht := loginFunc_providers_error env r fedCm ps err h
    simp only
    rw [ht]
    simp [respond, ResponseWriter.step, ResponseWriter.apply, ResponseWriter.WriteHeader,
      ResponseWriter.Write, ResponseWriter.fresh, ResponseWriter.finish]
  | none =>
    have ht := loginFunc_providers_ok env r fedCm ps h
    simp only
    refine ⟨ht, rfl, ?_, ?_⟩
    · simp [loginData, Option.isNone_iff_eq_none]
    · intro hok hops
      obtain ⟨h1, _, h3⟩ := foldl_apply_headerOnly _ ResponseWriter.fresh hops
      have hst : ((env.setReturnUriCookie (if fedCm then "/login-fedcm-auto" else "/login")).foldl
          ResponseWriter.apply ResponseWriter.fresh).status = none := h1
      have hbd : ((env.setReturnUriCookie (if fedCm then "/login-fedcm-auto" else "/login")).foldl
          ResponseWriter.apply ResponseWriter.fresh).body = "" := h3
      rw [ht, hok]
      by_cases hout : (env.ExecuteTemplate "login.html" (loginData env r fedCm ps)).1 = ""
      · simp [respond, ResponseWriter.step, ResponseWriter.finish, hout, hst, hbd]
      · simp [respond, ResponseWriter.step, ResponseWriter.finish, ResponseWriter.Write,
          ResponseWriter.WriteHeader, hout, hst, hbd]

/-- Without SMTP settings and with an empty provider list `/login` sets the cookie
and renders `login.html` with `CanEmail` false, and nothing else: the response is
200 with the page. With a failing provider-list lookup the response is 500 with the
error text. -/
theorem login_collaborator_failures_witness :
    smtpFailsEnv.GetSmtpConfig = some "no SMTP config" ∧
    loginFunc smtpFailsEnv appRequest false =
      [.setReturnUriCookie "/login",
       .executeTemplate "login.html"
        { DisplayName := "obligator"
          CanEmail := false
          Identities := []
          OAuth2Providers := []
          LogoMap := []
          ReturnUri := "/login"
          RootUri := "https://auth.example"
          FedCm := false }] ∧
    (respond smtpFailsEnv appRequest (loginFunc smtpFailsEnv appRequest false)).status = 200 ∧
    (respond smtpFailsEnv appRequest (loginFunc smtpFailsEnv appRequest false)).body
      = "<html></html>" ∧
    (respond providersFailEnv appRequest (loginFunc providersFailEnv appRequest false)).status
      = 500 ∧
    (respond providersFailEnv appRequest (loginFunc providersFailEnv appRequest false)).body
      = "storage unavailable" :=
  have hs := login_collaborator_failures smtpFailsEnv appRequest false
  have hp := login_collaborator_failures providersFailEnv appRequest false
  ⟨rfl, hs.1.trans (by decide), (hs.2.2.2 rfl (by decide)).1, (hs.2.2.2 rfl (by decide)).2,
   hp.2.2.1, hp.2.2.2⟩

/-! ## The redirect URL read back -/

theorem cut_append_sep (sep : Char) (a b : List Char) (h : sep ∉ a) :
    cut sep (a ++ sep :: b) = (a, b) := by
  induction a with
  | nil => simp [cut]
  | cons c a ih =>
    simp only [List.mem_cons, not_or] at h
    have hc : c ≠ sep := fun e => h.1 e.symm
    simp [cut, hc, ih h.2]

theorem cut_not_mem (sep : Char) (a : List Char) (h : sep ∉ a) : cut sep a = (a, []) := by
  induction a with
  | nil => simp [cut]
  | cons c a ih =>
    simp only [List.mem_cons, not_or] at h
    have hc : c ≠ sep := fun e => h.1 e.symm
    simp [cut, hc, ih h.2]

theorem split_append_sep (sep : Char) (a b : List Char) (h : sep ∉ a) :
    split sep (a ++ sep :: b) = a :: split sep b := by
  induction a with
  | nil => simp [split]
  | cons c a ih =>
    simp only [List.mem_cons, not_or] at h
    have hc : c ≠ sep := fun e => h.1 e.symm
    simp [split, hc, ih h.2]

theorem split_not_mem (sep : Char) (a : List Char) (h : sep ∉ a) : split sep a = [a] := by
  induction a with
  | nil => simp [split]
  | cons c a ih =>
    simp only [List.mem_cons, not_or] at h
    have hc : c ≠ sep := fun e => h.1 e.symm
    simp [split, hc, ih h.2]

/-- A leading `k=v&` of a query is its first pair. -/
theorem pairsOf_cons (k v rest : List Char) (hk : '=' ∉ k) (hk2 : '&' ∉ k) (hv : '&' ∉ v) :
    pairsOf (k ++ '=' :: (v ++ '&' :: rest)) = (String.mk k, String.mk v) :: pairsOf rest := by
  have h : '&' ∉ k ++ '=' :: v := by simp [hk2, hv]
  have e : k ++ '=' :: (v ++ '&' :: rest) = (k ++ '=' :: v) ++ '&' :: rest := by simp
  rw [pairsOf, e, split_append_sep _ _ _ h, List.map_cons, cut_append_sep _ _ _ hk]
  rfl

/-- A query that is a single `k=v`. -/
theorem pairsOf_last (k v : List Char) (hk : '=' ∉ k) (hk2 : '&' ∉ k) (hv : '&' ∉ v) :
    pairsOf (k ++ '=' :: v) = [(String.mk k, String.mk v)] := by
  have h : '&' ∉ k ++ '=' :: v := by simp [hk2, hv]
  rw [pairsOf, split_not_mem _ _ h, List.map_cons, cut_append_sep _ _ _ hk]
  rfl

theorem plainUri_not_mem (ru : String) (h : plainUri ru = true) :
    '&' ∉ ru.data ∧ '#' ∉ ru.data := by
  simp only [plainUri, List.all_eq_true] at h
  constructor
  · intro hm
    have := h _ hm
    simp at this
  · intro hm
    have := h _ hm
    simp at this

/-- Behind a root without `?` and `#`, the query of `root/auth?rest` is `rest`. -/
theorem rawQuery_of_root (root rest : String) (hq : '?' ∉ root.data) (hf : '#' ∉ root.data)
    (hr : '#' ∉ rest.data) :
    rawQuery (root ++ "/auth?" ++ rest) = rest.data := by
  have h1 : '#' ∉ (root ++ "/auth?" ++ rest).data := by
    simp [String.data_append, hf, hr]
  have h2 : '?' ∉ root.data ++ "/auth".data := by
    simp [hq]
  have e : (root ++ "/auth?" ++ rest).data = (root.data ++ "/auth".data) ++ '?' :: rest.data := by
    simp [String.data_append]
  rw [rawQuery, cut_not_mem _ _ h1, e, cut_append_sep _ _ _ h2]

theorem queryPairs_plain (root ru : String) (hq : '?' ∉ root.data) (hf : '#' ∉ root.data)
    (hr : plainUri ru = true) :
    queryPairs (validateUrl root ru) =
      [("client_id", ru), ("redirect_uri", ru), ("response_type", "code"), ("state", ""),
       ("scope", "")] := by
  obtain ⟨ha, hh⟩ := plainUri_not_mem ru hr
  have e : validateUrl root ru = root ++ "/auth?" ++ ("client_id=" ++ ru ++ "&redirect_uri=" ++ ru
      ++ "&response_type=code&state=&scope=") := by
    apply String.ext
    simp [validateUrl, String.data_append]
  have e2 : ("client_id=" ++ ru ++ "&redirect_uri=" ++ ru
      ++ "&response_type=code&state=&scope=").data =
      "client_id".data ++ '=' :: (ru.data ++ '&' ::
        ("redirect_uri".data ++ '=' :: (ru.data ++ '&' :: ("response_type".data ++ '=' ::
          ("code".data ++ '&' :: ("state".data ++ '=' :: ("".data ++ '&' ::
            ("scope".data ++ '=' :: "".data)))))))) := by
    simp [String.data_append]
  have h3 : '#' ∉ ("client_id=" ++ ru ++ "&redirect_uri=" ++ ru
      ++ "&response_type=code&state=&scope=").data := by
    simp [String.data_append, hh]
  rw [queryPairs, e, rawQuery_of_root root _ hq hf h3, e2,
    pairsOf_cons _ _ _ (by decide) (by decide) ha,
    pairsOf_cons _ _ _ (by decide) (by decide) ha,
    pairsOf_cons _ _ _ (by decide) (by decide) (by decide),
    pairsOf_cons _ _ _ (by decide) (by decide) (by decide),
    pairsOf_last _ _ (by decide) (by decide) (by decide)]

theorem queryPairs_crafted (root : String) (hq : '?' ∉ root.data) (hf : '#' ∉ root.data) :
    queryPairs (validateUrl root "https://a.example/?x=1&scope=admin") =
      [("client_id", "https://a.example/?x=1"), ("scope", "admin"),
       ("redirect_uri", "https://a.example/?x=1"), ("scope", "admin"),
       ("response_type", "code"), ("state", ""), ("scope", "")] := by
  have e : validateUrl root "https://a.example/?x=1&scope=admin" =
      root ++ "/auth?" ++ ("client_id=https://a.example/?x=1&scope=admin"
        ++ "&redirect_uri=https://a.example/?x=1&scope=admin"
        ++ "&response_type=code&state=&scope=") := by
    apply String.ext
    simp [validateUrl, String.data_append]
  rw [queryPairs, e, rawQuery_of_root root _ hq hf (by decide)]
  decide

/-- C10: line 67 inserts `redirect_uri` into the URL unchanged. Behind a root without
`?` and `#`, reading the query of the constructed URL back (split on `&`, then at
the first `=`) gives, for `redirect_uri = "https://a.example/?x=1&scope=admin"`, the
client_id `"https://a.example/?x=1"`, which is not the `redirect_uri`, and a first
scope `"admin"`; for every `redirect_uri` without `&`, `#`, `=`, `%`, `+` and `;` it
gives client_id and redirect_uri equal to the supplied value, response_type `code`,
and empty state and scope. -/
theorem validate_url_verbatim (root : String) (hq : '?' ∉ root.data) (hf : '#' ∉ root.data) :
    (∀ ru, validateUrl root ru =
      root ++ "/auth?client_id=" ++ ru ++ "&redirect_uri=" ++ ru
        ++ "&response_type=code&state=&scope=") ∧
    (queryGet (validateUrl root "https://a.example/?x=1&scope=admin") "client_id"
        = "https://a.example/?x=1" ∧
      queryGet (validateUrl root "https://a.example/?x=1&scope=admin") "client_id"
        ≠ "https://a.example/?x=1&scope=admin" ∧
      queryGet (validateUrl root "https://a.example/?x=1&scope=admin") "scope" = "admin") ∧
    ∀ ru, plainUri ru = true →
      queryGet (validateUrl root ru) "client_id" = ru ∧
      queryGet (validateUrl root ru) "redirect_uri" = ru ∧
      queryGet (validateUrl root ru) "response_type" = "code" ∧
      queryGet (validateUrl root ru) "state" = "" ∧
      queryGet (validateUrl root ru) "scope" = "" := by
  refine ⟨fun _ => rfl, ?_, ?_⟩
  · simp only [queryGet, queryPairs_crafted root hq hf]
    decide
  · intro ru hr
    simp only [queryGet, queryPairs_plain root ru hq hf hr]
    simp [List.lookup]

/-- The root `https://auth.example`: the crafted `redirect_uri` changes the client
identifier and the scope, the plain `https://app.example` is read back unchanged. -/
theorem validate_url_verbatim_witness :
    queryGet (validateUrl "https://auth.example" "https://a.example/?x=1&scope=admin")
      "client_id" = "https://a.example/?x=1" ∧
    queryGet (validateUrl "https://auth.example" "https://a.example/?x=1&scope=admin")
      "scope" = "admin" ∧
    queryGet (validateUrl "https://auth.example" "https://app.example") "client_id"
      = "https://app.example" ∧
    queryGet (validateUrl "https://auth.example" "https://app.example") "scope" = "" :=
  have h := validate_url_verbatim "https://auth.example" (by decide) (by decide)
  ⟨h.2.1.1, h.2.1.2.2, (h.2.2 "https://app.example" (by decide)).1,
   (h.2.2 "https://app.example" (by decide)).2.2.2.2⟩

end Obligator
